import Mathlib

/-!
Verification development for a task-management backend (FastAPI + SQLAlchemy + Celery).

The definitions below are a shallow embedding of the repository's data model and
of the operations the claims are about:
  - app/models/project.py      (Project, Task, enumerations, cascade declaration)
  - app/routers/task.py        (create/list/get/update/delete task handlers)
  - app/routers/project.py     (delete_project handler)
  - app/auth/jwt_handler.py    (create_access_token, verify_token)
  - app/tasks/email_tasks.py   (notification jobs, daily overdue summary)
  - app/utils/email_service.py (EmailService.send_email)

The SQL persistence layer is embedded as an explicit in-memory store (lists of
rows); HTTP errors are values of an `HTTPException` structure mirroring the
status codes and detail strings raised by the routers.
-/

deriving instance DecidableEq for Except

namespace App

/-- Task status enumeration (`TaskStatus` in app/models/project.py). -/
inductive TaskStatus where
  | todo
  | in_progress
  | done
deriving DecidableEq, Repr

/-- Task priority enumeration (`TaskPriority` in app/models/project.py). -/
inductive TaskPriority where
  | low
  | medium
  | high
deriving DecidableEq, Repr

/-- The string stored in the database for a status (SQLAlchemy `Enum` stores the
member name); string-valued query filters compare against this. -/
def statusName : TaskStatus → String
  | .todo => "todo"
  | .in_progress => "in_progress"
  | .done => "done"

/-- The string stored in the database for a priority. -/
def priorityName : TaskPriority → String
  | .low => "low"
  | .medium => "medium"
  | .high => "high"

/-- A point in time, mirroring Python `datetime` components relevant to the code
(`MySQL DATETIME`): comparison and equality are componentwise / lexicographic. -/
structure DateTime where
  year : Nat
  month : Nat
  day : Nat
  hour : Nat
  minute : Nat
  second : Nat
deriving DecidableEq, Repr

/-- Lexicographic key of a `DateTime`, giving the calendar order used by both
Python `datetime` comparison and the SQL `DATETIME` comparison. -/
def dtKey (d : DateTime) :
    Lex (Nat × Lex (Nat × Lex (Nat × Lex (Nat × Lex (Nat × Nat))))) :=
  toLex (d.year, toLex (d.month, toLex (d.day,
    toLex (d.hour, toLex (d.minute, d.second)))))

/-- Strict calendar order on datetimes. -/
def dtLt (a b : DateTime) : Prop := dtKey a < dtKey b

instance : DecidableRel dtLt := fun a b => by unfold dtLt; infer_instance

/-- Split a character list at every dash, mirroring `value.split("-")`. -/
def splitDash : List Char → List Char → List (List Char)
  | [], acc => [acc.reverse]
  | c :: cs, acc =>
    if c = '-' then acc.reverse :: splitDash cs [] else splitDash cs (c :: acc)

/-- Numeric value of a digit list. -/
def digitsVal (cs : List Char) : Nat :=
  cs.foldl (fun n c => n * 10 + (c.toNat - 48)) 0

/-- A non-empty all-digit field parses to its value, anything else fails. -/
def digitsToNat? (cs : List Char) : Option Nat :=
  if cs ≠ [] ∧ cs.all (fun c => c.isDigit) then some (digitsVal cs) else none

/-- `datetime.strptime(value, "%Y-%m-%d")` as used by the task list filter:
parses a dash-separated year-month-day into the datetime at midnight of that
day, failing on anything malformed (wrong field count, non-digits, or a month
or day out of range). -/
def parseYMD (s : String) : Option DateTime :=
  match splitDash s.data [] with
  | [ys, ms, ds] =>
    match digitsToNat? ys, digitsToNat? ms, digitsToNat? ds with
    | some y, some m, some d =>
      if 1 ≤ m ∧ m ≤ 12 ∧ 1 ≤ d ∧ d ≤ 31 then
        some ⟨y, m, d, 0, 0, 0⟩
      else none
    | _, _, _ => none
  | _ => none

/-- User row (app/models/user.py; referenced by the routers and jobs). -/
structure User where
  id : Nat
  name : String
  email : String
deriving DecidableEq, Repr

/-- Project row (`Project` in app/models/project.py). -/
structure Project where
  id : Nat
  title : String
  description : Option String
  owner_id : Nat
deriving DecidableEq, Repr

/-- Task row (`Task` in app/models/project.py). -/
structure Task where
  id : Nat
  title : String
  description : Option String
  status : TaskStatus
  priority : TaskPriority
  due_date : Option DateTime
  project_id : Nat
  assigned_user_id : Option Nat
  created_at : DateTime
  updated_at : DateTime
deriving DecidableEq, Repr

/-- The persistence store: the three tables the claims touch. -/
structure Store where
  users : List User
  projects : List Project
  tasks : List Task
deriving DecidableEq, Repr

/-- `fastapi.HTTPException`: status code plus detail string. -/
structure HTTPException where
  status_code : Nat
  detail : String
deriving DecidableEq, Repr

/-- Partial task update payload (`TaskUpdate` in app/schemas/task.py) with
exclude-unset semantics: the outer `Option` is none when the field was not
present in the request; for nullable columns the inner `Option` is the value. -/
structure TaskUpdate where
  title : Option String := none
  description : Option (Option String) := none
  status : Option TaskStatus := none
  priority : Option TaskPriority := none
  due_date : Option (Option DateTime) := none
  assigned_user_id : Option (Option Nat) := none
deriving DecidableEq, Repr

/-- Notification events queued by the task router via
`send_email_notification_safely` (app/routers/task.py). -/
inductive Notification where
  | assignment (task_id assigned_user_id assigned_by_id : Nat)
  | status_change (task_id user_id changed_by_id : Nat)
      (old_status new_status : TaskStatus)
deriving DecidableEq, Repr

/-- Base visibility query of `list_tasks` (app/routers/task.py lines 110-116):
`Task` joined with `Project` (the inner join drops tasks whose project row is
absent), keeping tasks whose project is owned by the user or that are assigned
to the user. -/
def visibleTasks (s : Store) (uid : Nat) : List Task :=
  s.tasks.filter (fun t =>
    match s.projects.find? (fun p => p.id == t.project_id) with
    | some p => p.owner_id == uid || t.assigned_user_id == some uid
    | none => false)

/-- `if status: query.filter(Task.status == status)` — Python truthiness: an
absent or empty-string parameter applies no filter; the SQLAlchemy enum filter
compares the stored member name with the given string. -/
def statusFiltered (q : List Task) (status : Option String) : List Task :=
  match status with
  | none => q
  | some v => if v.isEmpty then q else q.filter (fun t => statusName t.status == v)

/-- `if priority: query.filter(Task.priority == priority)`, as for status. -/
def priorityFiltered (q : List Task) (priority : Option String) : List Task :=
  match priority with
  | none => q
  | some v => if v.isEmpty then q else q.filter (fun t => priorityName t.priority == v)

/-- `if due_date:` — parse the string with `strptime("%Y-%m-%d")`; on failure
raise 400; on success filter by equality of the stored timestamp with the
parsed midnight datetime (app/routers/task.py lines 123-129). -/
def dueFiltered (q : List Task) (due_date : Option String) :
    Except HTTPException (List Task) :=
  match due_date with
  | none => .ok q
  | some v =>
    if v.isEmpty then .ok q
    else
      match parseYMD v with
      | some dtv => .ok (q.filter (fun t => t.due_date == some dtv))
      | none => .error ⟨400, "Invalid due_date format. Use YYYY-MM-DD."⟩

/-- `if project_id:` — a zero (falsy) or absent project id applies no filter. -/
def projectFiltered (q : List Task) (project_id : Option Nat) : List Task :=
  match project_id with
  | none => q
  | some pid => if pid == 0 then q else q.filter (fun t => t.project_id == pid)

/-- Position of a priority in the column's ENUM definition.  The database is
MySQL (app/db.py) and `Column(Enum(TaskPriority))` renders a native
`ENUM('low','medium','high')` column, which MySQL sorts by definition index:
low before medium before high. -/
def priorityIndex : TaskPriority → Nat
  | .low => 1
  | .medium => 2
  | .high => 3

/-- Sort key relation for `order_by(Task.priority)`: ascending by the native
ENUM column's definition index (low < medium < high). -/
def priLe (a b : Task) : Prop :=
  priorityIndex a.priority ≤ priorityIndex b.priority

instance : DecidableRel priLe := fun a b => by unfold priLe; infer_instance

instance : IsTotal Task priLe := ⟨fun _ _ => le_total _ _⟩

instance : IsTrans Task priLe := ⟨fun _ _ _ h h' => le_trans h h'⟩

/-- Sort key for `order_by(Task.due_date)`: ascending by the nullable datetime
column, with SQL NULLs ordered first. -/
def dueKey (t : Task) :
    WithBot (Lex (Nat × Lex (Nat × Lex (Nat × Lex (Nat × Lex (Nat × Nat)))))) :=
  match t.due_date with
  | none => ⊥
  | some d => (dtKey d : WithBot _)

/-- Sort key relation for `order_by(Task.due_date)`. -/
def dueLe (a b : Task) : Prop := dueKey a ≤ dueKey b

instance : DecidableRel dueLe := fun a b => by unfold dueLe; infer_instance

instance : IsTotal Task dueLe := ⟨fun a b => le_total _ _⟩

instance : IsTrans Task dueLe := ⟨fun _ _ _ h h' => le_trans h h'⟩

/-- `if sort_by in ["priority", "due_date"]: order_by(...) elif sort_by:
raise 400` (app/routers/task.py lines 133-137).  An absent or empty-string
(falsy) sort key is silently skipped. -/
def sortStep (q : List Task) (sort_by : Option String) :
    Except HTTPException (List Task) :=
  if sort_by == some "priority" then .ok (List.insertionSort priLe q)
  else if sort_by == some "due_date" then .ok (List.insertionSort dueLe q)
  else
    match sort_by with
    | some v => if v.isEmpty then .ok q else .error ⟨400, "Invalid sort_by field."⟩
    | none => .ok q

/-- The `GET /tasks/` handler `list_tasks` (app/routers/task.py): visibility
query, optional filters, optional sort, then `offset`/`limit` pagination. -/
def list_tasks (s : Store) (uid : Nat)
    (status priority due_date sort_by : Option String)
    (project_id : Option Nat) (limit offset : Nat) :
    Except HTTPException (List Task) := do
  let q := visibleTasks s uid
  let q := statusFiltered q status
  let q := priorityFiltered q priority
  let q ← dueFiltered q due_date
  let q := projectFiltered q project_id
  let q ← sortStep q sort_by
  return (q.drop offset).take limit

/-- The `setattr` loop of `update_task`: overwrite exactly the fields present
in the exclude-unset payload; `updated_at` is refreshed by the column's
`onupdate=datetime.utcnow` on commit. -/
def applyTaskUpdate (t : Task) (u : TaskUpdate) (now : DateTime) : Task :=
  { t with
    title := u.title.getD t.title
    description := u.description.getD t.description
    status := u.status.getD t.status
    priority := u.priority.getD t.priority
    due_date := u.due_date.getD t.due_date
    assigned_user_id := u.assigned_user_id.getD t.assigned_user_id
    updated_at := now }

/-- The `PATCH /tasks/{task_id}` handler `update_task` (app/routers/task.py
lines 176-255): 404 when the task id is absent; 403 unless the acting user owns
the task's project or is its assignee; otherwise apply the partial update,
commit, and queue notifications — a status-change notification when the payload
changed `status` and the (post-update) assignee exists and is not the actor,
and an assignment notification when the payload changed `assigned_user_id` to a
non-null value.  Returns the new store, the updated row and the queued
notifications.  (A task whose project row is missing would crash the handler;
that is a 500, unreachable under the model's foreign-key assumption.) -/
def update_task (s : Store) (uid tid : Nat) (u : TaskUpdate) (now : DateTime) :
    Except HTTPException (Store × Task × List Notification) :=
  match s.tasks.find? (fun t => t.id == tid) with
  | none => .error ⟨404, "Task not found"⟩
  | some task =>
    match s.projects.find? (fun p => p.id == task.project_id) with
    | none => .error ⟨500, "Internal Server Error"⟩
    | some project =>
      if !(project.owner_id == uid || task.assigned_user_id == some uid) then
        .error ⟨403, "Not authorized to update this task"⟩
      else
        let old_status := task.status
        let old_assigned_user_id := task.assigned_user_id
        let task' := applyTaskUpdate task u now
        let s' := { s with tasks := s.tasks.map (fun t => if t.id == tid then task' else t) }
        let statusNotifs : List Notification :=
          if u.status.isSome && old_status != task'.status then
            match task'.assigned_user_id with
            | some a => if a != uid then
                [.status_change task'.id a uid old_status task'.status] else []
            | none => []
          else []
        let assignNotifs : List Notification :=
          if u.assigned_user_id.isSome && old_assigned_user_id != task'.assigned_user_id then
            match task'.assigned_user_id with
            | some a => [.assignment task'.id a uid]
            | none => []
          else []
        .ok (s', task', statusNotifs ++ assignNotifs)

/-- The `DELETE /tasks/{task_id}` handler `delete_task` (app/routers/task.py
lines 257-289): 404 when absent; 403 unless the acting user owns the task's
project (stricter than update: the assignee may not delete); otherwise a hard
delete.  The handler queues no notification, hence the empty list. -/
def delete_task (s : Store) (uid tid : Nat) :
    Except HTTPException (Store × List Notification) :=
  match s.tasks.find? (fun t => t.id == tid) with
  | none => .error ⟨404, "Task not found"⟩
  | some task =>
    match s.projects.find? (fun p => p.id == task.project_id) with
    | none => .error ⟨500, "Internal Server Error"⟩
    | some project =>
      if project.owner_id != uid then
        .error ⟨403, "Not authorized to delete this task"⟩
      else
        .ok ({ s with tasks := s.tasks.filter (fun t => t.id != tid) }, [])

/-- The `DELETE /projects/{project_id}` handler `delete_project`
(app/routers/project.py lines 143-182): 404 when absent; 403 unless owned by
the acting user; otherwise delete the project row — and, through the
`cascade="all, delete-orphan"` declared on `Project.tasks`
(app/models/project.py line 26), every task row of that project. -/
def delete_project (s : Store) (uid pid : Nat) : Except HTTPException Store :=
  match s.projects.find? (fun p => p.id == pid) with
  | none => .error ⟨404, "Project not found"⟩
  | some project =>
    if project.owner_id != uid then
      .error ⟨403, "Not authorized to delete this project"⟩
    else
      .ok { s with
        projects := s.projects.filter (fun p => p.id != pid)
        tasks := s.tasks.filter (fun t => t.project_id != pid) }

/-! ## Credential service (app/auth/jwt_handler.py, app/routers/auth.py) -/

def SECRET_KEY : String :=
  "c999581ded5822a8c656f3e74ea67cbed682f5bc17b77d185c85a3703a7f1a34"

def ALGORITHM : String := "HS256"

def ACCESS_TOKEN_EXPIRE_MINUTES : Nat := 30

/-- Claims carried by a token: the subject set at login and the expiry stamped
by `create_access_token` (seconds since the epoch). -/
structure JwtPayload where
  sub : Option String
  exp : Option Nat
deriving DecidableEq, Repr

/-- Symbolic model of an encoded JWT (the `python-jose` encode/decode primitive
is an external collaborator): the signature is represented by recording the key
the token was signed with and the algorithm named in its header; verification
succeeds exactly when they match the verifier's. -/
structure JwtToken where
  payload : JwtPayload
  sigKey : String
  alg : String
deriving DecidableEq, Repr

/-- Symbolic `jwt.encode(payload, key, algorithm)`. -/
def jwtEncode (payload : JwtPayload) (key alg : String) : JwtToken :=
  ⟨payload, key, alg⟩

/-- Symbolic `jwt.decode(token, key, algorithms)` at time `now`: fails (raises
`JWTError`, here `none`) on a signature mismatch, on an algorithm not in the
accepted list, or when the embedded expiry has elapsed (`exp < now`). -/
def jwtDecode (t : JwtToken) (key : String) (algs : List String) (now : Nat) :
    Option JwtPayload :=
  if t.sigKey ≠ key then none
  else if t.alg ∉ algs then none
  else
    match t.payload.exp with
    | some e => if e < now then none else some t.payload
    | none => some t.payload

/-- `create_access_token(data)` (app/auth/jwt_handler.py lines 17-21): copy the
claims, stamp `exp = now + 30 minutes`, and sign with the module's secret. -/
def create_access_token (data : JwtPayload) (now : Nat) : JwtToken :=
  jwtEncode { data with exp := some (now + ACCESS_TOKEN_EXPIRE_MINUTES * 60) }
    SECRET_KEY ALGORITHM

/-- `verify_token(token)` (app/auth/jwt_handler.py lines 23-28): decode with
the module's secret; on success return the `sub` claim, on any `JWTError`
return `None`. -/
def verify_token (t : JwtToken) (now : Nat) : Option String :=
  match jwtDecode t SECRET_KEY [ALGORITHM] now with
  | some payload => payload.sub
  | none => none

/-- The token minted by the `login` handler (app/routers/auth.py line 63):
`create_access_token(data={"sub": str(user.id)})`. -/
def login_token (user_id now : Nat) : JwtToken :=
  create_access_token { sub := some (toString user_id), exp := none } now

/-! ## Notification dispatcher (app/tasks/email_tasks.py, app/utils/email_service.py) -/

/-- Outcome of one SMTP delivery attempt by the external transport. -/
inductive Transport where
  | delivered
  | smtpError (msg : String)
deriving DecidableEq, Repr

/-- `EmailService.send_email` (app/utils/email_service.py lines 47-87): returns
`False` when the service is not configured; otherwise attempts delivery,
catching every transport exception (`except Exception`) and returning `False`
— it never raises. -/
def send_email (enabled : Bool) (tr : Transport) : Bool :=
  if !enabled then false
  else
    match tr with
    | .delivered => true
    | .smtpError _ => false

/-- One execution of the body of the celery task `send_task_assignment_email`
(app/tasks/email_tasks.py lines 27-88): each entity lookup that comes back
empty logs and returns `False` (no retry is requested); when all lookups
succeed the email service is invoked and its boolean is returned.  `exc`
models an unexpected exception (for example a database failure) raised during
this execution: `Except.error` is an exception escaping the body into the
celery retry handler of the task's `except` block. -/
def assignment_email_attempt (s : Store) (enabled : Bool)
    (task_id assigned_user_id assigned_by_id : Nat)
    (tr : Transport) (exc : Option String) : Except String Bool :=
  match exc with
  | some m => .error m
  | none =>
    match s.tasks.find? (fun t => t.id == task_id) with
    | none => .ok false
    | some task =>
      match s.users.find? (fun u => u.id == assigned_user_id) with
      | none => .ok false
      | some _ =>
        match s.users.find? (fun u => u.id == assigned_by_id) with
        | none => .ok false
        | some _ =>
          match s.projects.find? (fun p => p.id == task.project_id) with
          | none => .ok false
          | some _ => .ok (send_email enabled tr)

/-- Terminal state of a celery job. -/
inductive JobOutcome where
  | completed (result : Bool)
  | abandoned (msg : String)
deriving DecidableEq, Repr

def MAX_RETRIES : Nat := 3

/-- The celery retry driver for a `@shared_task(bind=True, max_retries=3)` task
whose `except` block runs `raise self.retry(countdown=60 * (2 **
self.request.retries), exc=e)`: a body execution that returns completes the
job; one that raises is retried with the exponential countdown until the
retry budget `fuel` is exhausted, after which the job is abandoned.  The
second component collects the backoff countdowns that were used. -/
def celery_retry_loop (body : Nat → Except String Bool) :
    Nat → Nat → List Nat → JobOutcome × List Nat
  | 0, attempt, delays =>
    match body attempt with
    | .ok b => (.completed b, delays)
    | .error m => (.abandoned m, delays)
  | fuel + 1, attempt, delays =>
    match body attempt with
    | .ok b => (.completed b, delays)
    | .error _ => celery_retry_loop body fuel (attempt + 1) (delays ++ [60 * 2 ^ attempt])

/-- A full run of the `send_task_assignment_email` job under the celery driver:
`tr n` is the transport outcome and `exc n` the escaped exception (if any) of
the n-th execution. -/
def run_assignment_job (s : Store) (enabled : Bool)
    (task_id assigned_user_id assigned_by_id : Nat)
    (tr : Nat → Transport) (exc : Nat → Option String) : JobOutcome × List Nat :=
  celery_retry_loop
    (fun n => assignment_email_attempt s enabled task_id assigned_user_id
      assigned_by_id (tr n) (exc n))
    MAX_RETRIES 0 []

/-- The per-user overdue query of `send_daily_overdue_summary`
(app/tasks/email_tasks.py lines 178-182): tasks joined with their project where
(the project is owned by the user OR the task is assigned to the user) AND
`due_date < today` (SQL: a NULL due date never satisfies this) AND the status
is not `done`.  `today` is `datetime.now().date()`, i.e. midnight of the
current day, which is how SQL coerces the date for the comparison. -/
def overdueTasksFor (s : Store) (uid : Nat) (today : DateTime) : List Task :=
  s.tasks.filter (fun t =>
    (match s.projects.find? (fun p => p.id == t.project_id) with
     | some p => p.owner_id == uid || t.assigned_user_id == some uid
     | none => false)
    && (match t.due_date with
        | some d => decide (dtLt d today)
        | none => false)
    && !(t.status == TaskStatus.done))

/-- Result dictionary of `send_daily_overdue_summary`. -/
structure OverdueSummary where
  emails_sent : Nat
  total_overdue_tasks : Nat
  date : DateTime
deriving DecidableEq, Repr

/-- The user loop of `send_daily_overdue_summary` (app/tasks/email_tasks.py
lines 176-189), which sits inside a single `try` block: for each user in turn,
run the overdue query and, when it is non-empty, enqueue a per-user summary job
(`send_overdue_summary_to_user.delay(...)` — its `AsyncResult` handle is
truthy, so the counters are incremented for every enqueue).  `exc u.id` models
an exception raised while processing that user (database query or broker
enqueue); it propagates out of the loop to the job-level `except`, which
returns an error dictionary — users after the failing one are never processed.
The second component is the list of enqueued `(user_id, task_ids)` jobs, which
persists across the failure. -/
def summaryLoop (s : Store) (today : DateTime) (exc : Nat → Option String) :
    List User → Nat → Nat → List (Nat × List Nat) →
    Except String OverdueSummary × List (Nat × List Nat)
  | [], emails_sent, total_overdue_tasks, jobs =>
    (.ok ⟨emails_sent, total_overdue_tasks, today⟩, jobs)
  | u :: rest, emails_sent, total_overdue_tasks, jobs =>
    match exc u.id with
    | some m => (.error m, jobs)
    | none =>
      let overdue_tasks := overdueTasksFor s u.id today
      if overdue_tasks.isEmpty then
        summaryLoop s today exc rest emails_sent total_overdue_tasks jobs
      else
        summaryLoop s today exc rest (emails_sent + 1)
          (total_overdue_tasks + overdue_tasks.length)
          (jobs ++ [(u.id, overdue_tasks.map (fun t => t.id))])

/-- The celery task `send_daily_overdue_summary` (app/tasks/email_tasks.py
lines 158-203) over all users of the store, starting from zeroed counters. -/
def send_daily_overdue_summary (s : Store) (today : DateTime)
    (exc : Nat → Option String) :
    Except String OverdueSummary × List (Nat × List Nat) :=
  summaryLoop s today exc s.users 0 0 []

/-- What the spec means by a calendar-day match of a stored timestamp against a
`YYYY-MM-DD` filter: the date components agree, whatever the time of day.
Stated from the spec's words, for comparison with the code's filter. -/
def specCalendarDayMatch (stored filterDay : DateTime) : Bool :=
  stored.year == filterDay.year && stored.month == filterDay.month
    && stored.day == filterDay.day

/-! ## Concrete fixtures used by witnesses and counterexamples -/

/-- Midnight zero timestamp used for rows whose audit columns do not matter. -/
def dt0 : DateTime := ⟨0, 0, 0, 0, 0, 0⟩

def alice : User := ⟨1, "alice", "alice@example.com"⟩

def bob : User := ⟨2, "bob", "bob@example.com"⟩

/-- A project owned by alice. -/
def p10 : Project := ⟨10, "P", none, 1⟩

/-- A task in alice's project, assigned to bob, due at noon of 2024-05-01. -/
def t100 : Task :=
  ⟨100, "T", none, .todo, .medium, some ⟨2024, 5, 1, 12, 0, 0⟩, 10, some 2, dt0, dt0⟩

def S0 : Store := ⟨[alice, bob], [p10], [t100]⟩

/-! ## Helper lemmas: everything `list_tasks` returns is a task of the store -/

theorem mem_of_statusFiltered {q : List Task} {p : Option String} {t : Task}
    (h : t ∈ statusFiltered q p) : t ∈ q := by
  rcases p with _ | v
  · exact h
  · simp only [statusFiltered] at h
    split at h
    · exact h
    · exact (List.mem_filter.mp h).1

theorem mem_of_priorityFiltered {q : List Task} {p : Option String} {t : Task}
    (h : t ∈ priorityFiltered q p) : t ∈ q := by
  rcases p with _ | v
  · exact h
  · simp only [priorityFiltered] at h
    split at h
    · exact h
    · exact (List.mem_filter.mp h).1

theorem mem_of_projectFiltered {q : List Task} {p : Option Nat} {t : Task}
    (h : t ∈ projectFiltered q p) : t ∈ q := by
  rcases p with _ | v
  · exact h
  · simp only [projectFiltered] at h
    split at h
    · exact h
    · exact (List.mem_filter.mp h).1

theorem mem_of_dueFiltered {q l : List Task} {p : Option String} {t : Task}
    (h : dueFiltered q p = .ok l) (ht : t ∈ l) : t ∈ q := by
  rcases p with _ | v
  · cases h; exact ht
  · simp only [dueFiltered] at h
    split at h
    · cases h; exact ht
    · cases hpv : parseYMD v with
      | some dtv => rw [hpv] at h; cases h; exact (List.mem_filter.mp ht).1
      | none => rw [hpv] at h; cases h

theorem mem_of_sortStep {q l : List Task} {p : Option String} {t : Task}
    (h : sortStep q p = .ok l) (ht : t ∈ l) : t ∈ q := by
  unfold sortStep at h
  split at h
  · cases h; exact (List.mem_insertionSort priLe).mp ht
  · split at h
    · cases h; exact (List.mem_insertionSort dueLe).mp ht
    · split at h
      · split at h
        · cases h; exact ht
        · cases h
      · cases h; exact ht

theorem mem_of_visibleTasks {s : Store} {uid : Nat} {t : Task}
    (h : t ∈ visibleTasks s uid) : t ∈ s.tasks :=
  (List.mem_filter.mp h).1

theorem mem_tasks_of_list_tasks {s : Store} {uid : Nat}
    {st pr dd sb : Option String} {pj : Option Nat} {lim off : Nat}
    {l : List Task} {t : Task}
    (h : list_tasks s uid st pr dd sb pj lim off = .ok l) (ht : t ∈ l) :
    t ∈ s.tasks := by
  unfold list_tasks at h
  simp only [bind, Except.bind] at h
  cases hd : dueFiltered (priorityFiltered (statusFiltered (visibleTasks s uid) st) pr) dd with
  | error e => rw [hd] at h; exact absurd h (by simp)
  | ok q3 =>
    rw [hd] at h
    dsimp only at h
    cases hs : sortStep (projectFiltered q3 pj) sb with
    | error e => rw [hs] at h; exact absurd h (by simp)
    | ok q5 =>
      rw [hs] at h
      simp only [pure, Except.pure, Except.ok.injEq] at h
      subst h
      have h1 : t ∈ q5 := List.drop_subset off _ (List.take_subset lim _ ht)
      have h2 : t ∈ projectFiltered q3 pj := mem_of_sortStep hs h1
      have h3 : t ∈ q3 := mem_of_projectFiltered h2
      have h4 := mem_of_dueFiltered hd h3
      exact mem_of_visibleTasks (mem_of_statusFiltered (mem_of_priorityFiltered h4))

/-! ## C1: authorization asymmetry between task update and task deletion -/

/-- C1.  For an existing task and its owning project, `update_task` succeeds
(and in particular does not fail Forbidden) exactly when the acting user owns
the project or is the task's assignee, and fails 403 exactly otherwise, while
`delete_task` succeeds exactly when the acting user owns the project and fails
403 exactly otherwise; consequently an assignee who is not the owner can
update but cannot delete the task. -/
theorem task_auth_asymmetry (s : Store) (uid tid : Nat) (task : Task)
    (project : Project) (upd : TaskUpdate) (now : DateTime)
    (ht : s.tasks.find? (fun t => t.id == tid) = some task)
    (hp : s.projects.find? (fun p => p.id == task.project_id) = some project) :
    ((∃ r, update_task s uid tid upd now = .ok r) ↔
      (project.owner_id = uid ∨ task.assigned_user_id = some uid))
    ∧ ((update_task s uid tid upd now =
        .error ⟨403, "Not authorized to update this task"⟩) ↔
      ¬(project.owner_id = uid ∨ task.assigned_user_id = some uid))
    ∧ ((∃ r, delete_task s uid tid = .ok r) ↔ project.owner_id = uid)
    ∧ ((delete_task s uid tid =
        .error ⟨403, "Not authorized to delete this task"⟩) ↔
      project.owner_id ≠ uid) := by
  unfold update_task delete_task
  rw [ht]
  dsimp only
  rw [hp]
  by_cases h1 : project.owner_id = uid <;> by_cases h2 : task.assigned_user_id = some uid <;>
    simp [h1, h2]

/-- C1 witness: in the fixture store, bob (assignee of `t100`, not owner of
`p10`) may update the task but not delete it; the iff characterizations hold
at this instance. -/
theorem task_auth_asymmetry_witness :
    ((∃ r, update_task S0 2 100 { status := some .done } dt0 = .ok r) ↔
      (p10.owner_id = 2 ∨ t100.assigned_user_id = some 2))
    ∧ ((update_task S0 2 100 { status := some .done } dt0 =
        .error ⟨403, "Not authorized to update this task"⟩) ↔
      ¬(p10.owner_id = 2 ∨ t100.assigned_user_id = some 2))
    ∧ ((∃ r, delete_task S0 2 100 = .ok r) ↔ p10.owner_id = 2)
    ∧ ((delete_task S0 2 100 =
        .error ⟨403, "Not authorized to delete this task"⟩) ↔
      p10.owner_id ≠ 2) :=
  task_auth_asymmetry S0 2 100 t100 p10 { status := some .done } dt0 (by decide) (by decide)

/-! ## C2: deleting a project cascades to all its tasks -/

/-- C2.  After a successful `delete_project`, no task with the deleted
project's id remains in the store, and any successful `list_tasks` call made
by any user against the resulting store returns no task of that project. -/
theorem delete_project_cascades (s : Store) (uid pid : Nat) (s' : Store)
    (h : delete_project s uid pid = .ok s') :
    (∀ t ∈ s'.tasks, t.project_id ≠ pid)
    ∧ (∀ (uid2 : Nat) (st pr dd sb : Option String) (pj : Option Nat)
        (lim off : Nat) (l : List Task),
        list_tasks s' uid2 st pr dd sb pj lim off = .ok l →
        ∀ t ∈ l, t.project_id ≠ pid) := by
  unfold delete_project at h
  cases hf : s.projects.find? (fun p => p.id == pid) with
  | none => rw [hf] at h; exact absurd h (by simp)
  | some project =>
    rw [hf] at h
    dsimp only at h
    by_cases hown : (project.owner_id != uid) = true
    · simp only [if_pos hown] at h
      exact absurd h (by simp)
    · simp only [if_neg hown] at h
      cases h
      constructor
      · intro t htm
        have := (List.mem_filter.mp htm).2
        simpa using this
      · intro uid2 st pr dd sb pj lim off l hl t htl
        have htm := mem_tasks_of_list_tasks hl htl
        have := (List.mem_filter.mp htm).2
        simpa using this

/-- C2 witness: deleting alice's project `p10` from the fixture store removes
its task `t100`, and listing afterwards can return no task of project 10. -/
theorem delete_project_cascades_witness :
    (∀ t ∈ (⟨[alice, bob], [], []⟩ : Store).tasks, t.project_id ≠ 10)
    ∧ (∀ (uid2 : Nat) (st pr dd sb : Option String) (pj : Option Nat)
        (lim off : Nat) (l : List Task),
        list_tasks ⟨[alice, bob], [], []⟩ uid2 st pr dd sb pj lim off = .ok l →
        ∀ t ∈ l, t.project_id ≠ 10) :=
  delete_project_cascades S0 1 10 ⟨[alice, bob], [], []⟩ (by decide)

/-! ## C3: the due_date filter is an exact-timestamp match, not a calendar-day match -/

/-- C3 counterexample: task `t100` is visible to alice and its due timestamp
(noon of 2024-05-01) falls on the calendar day of the filter `"2024-05-01"`,
yet `list_tasks` with that filter does not return it — the filter compares the
stored timestamp against midnight of the filter day for equality. -/
theorem due_date_filter_rejects_same_day_noon :
    t100 ∈ visibleTasks S0 1
    ∧ t100.due_date = some ⟨2024, 5, 1, 12, 0, 0⟩
    ∧ parseYMD "2024-05-01" = some ⟨2024, 5, 1, 0, 0, 0⟩
    ∧ specCalendarDayMatch ⟨2024, 5, 1, 12, 0, 0⟩ ⟨2024, 5, 1, 0, 0, 0⟩ = true
    ∧ list_tasks S0 1 none none (some "2024-05-01") none none 10 0 = .ok [] := by
  refine ⟨by decide, by decide, by decide, by decide, by decide⟩

/-- C3 amended.  With a well-formed `YYYY-MM-DD` filter (and no other filter,
sort, or truncating pagination), `list_tasks` returns exactly the visible
tasks whose stored due timestamp is *equal* to midnight of the filter day (the
parsed datetime), not those merely falling on that calendar day. -/
theorem due_date_filter_exact_timestamp (s : Store) (uid : Nat) (d : String)
    (dt : DateTime) (t : Task) (hp : parseYMD d = some dt) :
    list_tasks s uid none none (some d) none none s.tasks.length 0 =
      .ok ((visibleTasks s uid).filter (fun t => t.due_date == some dt))
    ∧ (t ∈ (visibleTasks s uid).filter (fun t => t.due_date == some dt) ↔
        t ∈ visibleTasks s uid ∧ t.due_date = some dt) := by
  have hne : d.isEmpty = false := by
    cases hde : d.isEmpty
    · rfl
    · exfalso
      have : d = "" := (String.isEmpty_iff d).mp hde
      subst this
      rw [show parseYMD "" = none from rfl] at hp
      cases hp
  constructor
  · have hlen :
        (List.filter (fun t => t.due_date == some dt) (visibleTasks s uid)).length ≤
          s.tasks.length :=
      le_trans (List.length_filter_le _ _) (List.length_filter_le _ s.tasks)
    simp [list_tasks, bind, Except.bind, statusFiltered, priorityFiltered,
      dueFiltered, projectFiltered, sortStep, hne, hp, pure, Except.pure,
      List.take_of_length_le hlen]
  · simp [List.mem_filter]

/-- C3 amended witness: in a store holding a task due exactly at midnight of
2024-05-02, the filter `"2024-05-02"` returns exactly that task. -/
theorem due_date_filter_exact_timestamp_witness :
    (list_tasks ⟨[alice], [p10],
        [⟨101, "M", none, .todo, .medium, some ⟨2024, 5, 2, 0, 0, 0⟩, 10, none, dt0, dt0⟩]⟩ 1
        none none (some "2024-05-02") none none 1 0 =
      .ok ((visibleTasks ⟨[alice], [p10],
        [⟨101, "M", none, .todo, .medium, some ⟨2024, 5, 2, 0, 0, 0⟩, 10, none, dt0, dt0⟩]⟩ 1).filter
          (fun t => t.due_date == some ⟨2024, 5, 2, 0, 0, 0⟩)))
    ∧ (⟨101, "M", none, .todo, .medium, some ⟨2024, 5, 2, 0, 0, 0⟩, 10, none, dt0, dt0⟩ ∈
        (visibleTasks ⟨[alice], [p10],
          [⟨101, "M", none, .todo, .medium, some ⟨2024, 5, 2, 0, 0, 0⟩, 10, none, dt0, dt0⟩]⟩ 1).filter
            (fun t => t.due_date == some ⟨2024, 5, 2, 0, 0, 0⟩) ↔
        ⟨101, "M", none, .todo, .medium, some ⟨2024, 5, 2, 0, 0, 0⟩, 10, none, dt0, dt0⟩ ∈
          visibleTasks ⟨[alice], [p10],
            [⟨101, "M", none, .todo, .medium, some ⟨2024, 5, 2, 0, 0, 0⟩, 10, none, dt0, dt0⟩]⟩ 1 ∧
        (⟨101, "M", none, .todo, .medium, some ⟨2024, 5, 2, 0, 0, 0⟩, 10, none, dt0,
          dt0⟩ : Task).due_date = some ⟨2024, 5, 2, 0, 0, 0⟩) :=
  due_date_filter_exact_timestamp
    ⟨[alice], [p10], [⟨101, "M", none, .todo, .medium, some ⟨2024, 5, 2, 0, 0, 0⟩, 10, none, dt0, dt0⟩]⟩
    1 "2024-05-02" ⟨2024, 5, 2, 0, 0, 0⟩
    ⟨101, "M", none, .todo, .medium, some ⟨2024, 5, 2, 0, 0, 0⟩, 10, none, dt0, dt0⟩
    (by decide)

/-! ## C4: sort_by validation and sorting -/

/-- C4 counterexample: an empty-string `sort_by` — which is neither
`"priority"` nor `"due_date"` — is *not* rejected with a 400: being falsy it
slips past the `elif sort_by:` check and the call succeeds with unsorted
results. -/
theorem empty_sort_by_silently_accepted :
    list_tasks S0 1 none none none (some "") none 10 0 = .ok [t100]
    ∧ ∀ e, list_tasks S0 1 none none none (some "") none 10 0 ≠ .error e := by
  refine ⟨by decide, ?_⟩
  intro e h
  rw [(by decide : list_tasks S0 1 none none none (some "") none 10 0 = .ok [t100])] at h
  cases h

/-- C4 amended.  A *non-empty* `sort_by` value other than `"priority"` or
`"due_date"` fails with the 400 invalid-request error; the empty string, being
falsy, is treated exactly like an absent `sort_by` (no error, no sorting); and
when `sort_by` is `"priority"` or `"due_date"` the returned page is sorted
ascending by that field — priority by the native ENUM column's definition
order (low < medium < high), due date chronologically with NULLs first. -/
theorem sort_by_validation (s : Store) (uid lim off : Nat)
    (st pr : Option String) (pj : Option Nat) :
    (∀ v : String, v ≠ "" → v ≠ "priority" → v ≠ "due_date" →
      list_tasks s uid st pr none (some v) pj lim off =
        .error ⟨400, "Invalid sort_by field."⟩)
    ∧ (list_tasks s uid st pr none (some "") pj lim off =
        list_tasks s uid st pr none none pj lim off)
    ∧ (∀ l, list_tasks s uid st pr none (some "priority") pj lim off = .ok l →
        l.Sorted priLe)
    ∧ (∀ l, list_tasks s uid st pr none (some "due_date") pj lim off = .ok l →
        l.Sorted dueLe) := by
  refine ⟨?_, rfl, ?_, ?_⟩
  · intro v hv1 hv2 hv3
    have hve : v.isEmpty = false := by
      cases h : v.isEmpty
      · rfl
      · exact absurd ((String.isEmpty_iff v).mp h) hv1
    simp [list_tasks, bind, Except.bind, dueFiltered, sortStep, hv2, hv3, hve]
  · intro l hl
    simp only [list_tasks, bind, Except.bind, dueFiltered, sortStep, pure,
      Except.pure, Except.ok.injEq] at hl
    simp only [show ((some "priority" : Option String) == some "priority") = true from rfl,
      if_true, Except.ok.injEq] at hl
    subst hl
    exact List.Pairwise.sublist
      (List.Sublist.trans (List.take_sublist _ _) (List.drop_sublist _ _))
      (List.sorted_insertionSort priLe _)
  · intro l hl
    simp only [list_tasks, bind, Except.bind, dueFiltered, sortStep, pure,
      Except.pure, Except.ok.injEq] at hl
    simp only [show ((some "due_date" : Option String) == some "priority") = false from rfl,
      show ((some "due_date" : Option String) == some "due_date") = true from rfl,
      if_true, if_false, Bool.false_eq_true, Except.ok.injEq] at hl
    subst hl
    exact List.Pairwise.sublist
      (List.Sublist.trans (List.take_sublist _ _) (List.drop_sublist _ _))
      (List.sorted_insertionSort dueLe _)

/-- A low-priority task in alice's project. -/
def tLow : Task := ⟨101, "L", none, .todo, .low, none, 10, none, dt0, dt0⟩

/-- A high-priority task in alice's project, listed before `tLow` in the
store so that the priority sort has to reorder. -/
def tHigh : Task := ⟨102, "H", none, .todo, .high, none, 10, none, dt0, dt0⟩

def S4 : Store := ⟨[alice], [p10], [tHigh, tLow]⟩

/-- C4 witness: an unknown sort key is rejected with the 400 error, the
empty-string sort key behaves like no sort key, and sorting by priority
reorders a high-before-low store into ENUM definition order (low before
high); the due-date sorted page is sorted too. -/
theorem sort_by_validation_witness :
    (list_tasks S0 1 none none none (some "bogus") none 10 0 =
      .error ⟨400, "Invalid sort_by field."⟩)
    ∧ (list_tasks S0 1 none none none (some "") none 10 0 =
        list_tasks S0 1 none none none none none 10 0)
    ∧ ([tLow, tHigh] : List Task).Sorted priLe
    ∧ ([t100] : List Task).Sorted dueLe :=
  ⟨(sort_by_validation S0 1 10 0 none none none).1 "bogus"
      (by decide) (by decide) (by decide),
   (sort_by_validation S0 1 10 0 none none none).2.1,
   (sort_by_validation S4 1 10 0 none none none).2.2.1 [tLow, tHigh] (by decide),
   (sort_by_validation S0 1 10 0 none none none).2.2.2 [t100] (by decide)⟩

/-! ## C5: notification emission rules of update_task, and none on delete -/

/-- C5.  For a successful `update_task`: the updated row is exactly the
exclude-unset application of the payload; a status-change notification is
queued iff the payload contained `status` and changed it AND the post-update
task has an assignee distinct from the acting user; independently an
assignment notification is queued iff the payload contained
`assigned_user_id` and changed it to a non-null value; and `delete_task`
never queues a notification. -/
theorem update_task_notification_rules (s : Store) (uid tid : Nat) (task : Task)
    (project : Project) (upd : TaskUpdate) (now : DateTime)
    (s' : Store) (t' : Task) (ns : List Notification)
    (ht : s.tasks.find? (fun t => t.id == tid) = some task)
    (hp : s.projects.find? (fun p => p.id == task.project_id) = some project)
    (h : update_task s uid tid upd now = .ok (s', t', ns)) :
    t' = applyTaskUpdate task upd now
    ∧ ((∃ a o n, Notification.status_change t'.id a uid o n ∈ ns) ↔
        (upd.status.isSome = true ∧ task.status ≠ t'.status
          ∧ ∃ a, t'.assigned_user_id = some a ∧ a ≠ uid))
    ∧ ((∃ a, Notification.assignment t'.id a uid ∈ ns) ↔
        (upd.assigned_user_id.isSome = true
          ∧ task.assigned_user_id ≠ t'.assigned_user_id
          ∧ t'.assigned_user_id ≠ none))
    ∧ (∀ (s2 : Store) (uid2 tid2 : Nat) (r2 : Store × List Notification),
        delete_task s2 uid2 tid2 = .ok r2 → r2.2 = []) := by
  unfold update_task at h
  rw [ht] at h
  dsimp only at h
  rw [hp] at h
  dsimp only at h
  by_cases hauth : (project.owner_id == uid || task.assigned_user_id == some uid) = true
  · simp only [hauth, Bool.not_true, Bool.false_eq_true, if_false] at h
    simp only [Except.ok.injEq, Prod.mk.injEq] at h
    obtain ⟨hs', ht', hns⟩ := h
    subst hs' ht' hns
    refine ⟨rfl, ?_, ?_, ?_⟩
    · by_cases c1 : upd.status.isSome = true <;>
      by_cases c2 : task.status = (applyTaskUpdate task upd now).status <;>
      by_cases d1 : upd.assigned_user_id.isSome = true <;>
      by_cases d2 : task.assigned_user_id = (applyTaskUpdate task upd now).assigned_user_id <;>
      rcases hca : (applyTaskUpdate task upd now).assigned_user_id with _ | a <;>
      first
        | (simp [c1, c2, d1, d2, hca, bne_iff_ne]; done)
        | (by_cases c4 : a = uid <;> simp [c1, c2, d1, d2, hca, c4, bne_iff_ne] <;> done)
    · by_cases c1 : upd.status.isSome = true <;>
      by_cases c2 : task.status = (applyTaskUpdate task upd now).status <;>
      by_cases d1 : upd.assigned_user_id.isSome = true <;>
      by_cases d2 : task.assigned_user_id = (applyTaskUpdate task upd now).assigned_user_id <;>
      rcases hca : (applyTaskUpdate task upd now).assigned_user_id with _ | a <;>
      first
        | (simp [c1, c2, d1, d2, hca, bne_iff_ne]; done)
        | (by_cases c4 : a = uid <;> simp [c1, c2, d1, d2, hca, c4, bne_iff_ne] <;> done)
    · intro s2 uid2 tid2 r2 h2
      unfold delete_task at h2
      cases hf2 : s2.tasks.find? (fun t => t.id == tid2) with
      | none => rw [hf2] at h2; cases h2
      | some task2 =>
        rw [hf2] at h2
        dsimp only at h2
        cases hp2 : s2.projects.find? (fun p => p.id == task2.project_id) with
        | none => rw [hp2] at h2; cases h2
        | some project2 =>
          rw [hp2] at h2
          dsimp only at h2
          by_cases hown : (project2.owner_id != uid2) = true
          · simp only [if_pos hown] at h2; cases h2
          · simp only [if_neg hown] at h2; cases h2; rfl
  · simp only [Bool.not_eq_true] at hauth
    simp only [hauth, Bool.not_false] at h
    exact absurd h (by simp)

/-- The updated row produced by the C5 witness scenario. -/
def t100u : Task := { t100 with status := .done, assigned_user_id := some 1 }

/-- The payload of the C5 witness scenario: set status to done and reassign to
alice. -/
def upd5 : TaskUpdate := { status := some .done, assigned_user_id := some (some 1) }

/-- C5 witness: bob updates `t100`, changing both its status and its assignee
to alice (who is neither the actor nor the previous assignee): both a
status-change and an assignment notification are queued by this one update,
and the characterizations hold at this instance. -/
theorem update_task_notification_rules_witness :
    t100u = applyTaskUpdate t100 upd5 dt0
    ∧ ((∃ a o n, Notification.status_change t100u.id a 2 o n ∈
          [Notification.status_change 100 1 2 .todo .done,
           Notification.assignment 100 1 2]) ↔
        (upd5.status.isSome = true ∧ t100.status ≠ t100u.status
          ∧ ∃ a, t100u.assigned_user_id = some a ∧ a ≠ 2))
    ∧ ((∃ a, Notification.assignment t100u.id a 2 ∈
          [Notification.status_change 100 1 2 .todo .done,
           Notification.assignment 100 1 2]) ↔
        (upd5.assigned_user_id.isSome = true
          ∧ t100.assigned_user_id ≠ t100u.assigned_user_id
          ∧ t100u.assigned_user_id ≠ none))
    ∧ (∀ (s2 : Store) (uid2 tid2 : Nat) (r2 : Store × List Notification),
        delete_task s2 uid2 tid2 = .ok r2 → r2.2 = []) :=
  update_task_notification_rules S0 2 100 t100 p10 upd5 dt0
    ⟨[alice, bob], [p10], [t100u]⟩ t100u
    [Notification.status_change 100 1 2 .todo .done, Notification.assignment 100 1 2]
    (by decide) (by decide) (by decide)

/-! ## C6: token round trip and fail-closed resolution -/

/-- C6.  Resolving a token immediately after issuing it at login yields the
user's id (as the stringified `sub` claim); and resolution fails closed: a
failing decode, a signature mismatch, or an elapsed expiry each yield `none`,
never a partially trusted identity. -/
theorem token_round_trip_and_fail_closed :
    (∀ uid now : Nat, verify_token (login_token uid now) now = some (toString uid))
    ∧ (∀ (t : JwtToken) (now : Nat),
        jwtDecode t SECRET_KEY [ALGORITHM] now = none → verify_token t now = none)
    ∧ (∀ (t : JwtToken) (now : Nat), t.sigKey ≠ SECRET_KEY → verify_token t now = none)
    ∧ (∀ (t : JwtToken) (now e : Nat), t.payload.exp = some e → e < now →
        verify_token t now = none) := by
  refine ⟨?_, ?_, ?_, ?_⟩
  · intro uid now
    have hlt : ¬ (now + ACCESS_TOKEN_EXPIRE_MINUTES * 60 < now) :=
      Nat.not_lt.mpr (Nat.le_add_right now _)
    simp [verify_token, login_token, create_access_token, jwtEncode, jwtDecode, hlt]
  · intro t now h
    unfold verify_token
    rw [h]
  · intro t now h
    simp [verify_token, jwtDecode, h]
  · intro t now e he hlt
    by_cases h1 : t.sigKey = SECRET_KEY
    · by_cases h2 : t.alg = ALGORITHM
      · simp [verify_token, jwtDecode, h1, h2, he, hlt]
      · simp [verify_token, jwtDecode, h1, h2]
    · simp [verify_token, jwtDecode, h1]

/-- C6 witness: the login round trip at a concrete user and time; a token
signed under a different key resolves to none; a token whose expiry has
elapsed resolves to none; a token whose decode fails (wrong algorithm header)
resolves to none. -/
theorem token_round_trip_and_fail_closed_witness :
    verify_token (login_token 7 1000) 1000 = some "7"
    ∧ verify_token ⟨⟨some "7", some 100⟩, "wrongkey", "HS256"⟩ 0 = none
    ∧ verify_token ⟨⟨some "7", some 100⟩, SECRET_KEY, "HS256"⟩ 101 = none
    ∧ verify_token ⟨⟨some "7", some 100⟩, SECRET_KEY, "none"⟩ 0 = none :=
  ⟨token_round_trip_and_fail_closed.1 7 1000,
   token_round_trip_and_fail_closed.2.2.1 ⟨⟨some "7", some 100⟩, "wrongkey", "HS256"⟩ 0
     (by decide),
   token_round_trip_and_fail_closed.2.2.2 ⟨⟨some "7", some 100⟩, SECRET_KEY, "HS256"⟩ 101 100
     rfl (by decide),
   token_round_trip_and_fail_closed.2.1 ⟨⟨some "7", some 100⟩, SECRET_KEY, "none"⟩ 0
     (by decide)⟩

/-! ## C7 and C8: the daily overdue summary -/

/-- Closed form of the user loop when no exception occurs: every user with a
non-empty overdue set contributes one enqueued job (with exactly their overdue
task ids), one email count, and their task count. -/
theorem summaryLoop_no_exc (s : Store) (today : DateTime) :
    ∀ (us : List User) (sent total : Nat) (jobs : List (Nat × List Nat)),
    summaryLoop s today (fun _ => none) us sent total jobs =
      (.ok ⟨sent + (us.filter (fun u => !(overdueTasksFor s u.id today).isEmpty)).length,
            total + ((us.filter (fun u => !(overdueTasksFor s u.id today).isEmpty)).map
              (fun u => (overdueTasksFor s u.id today).length)).sum,
            today⟩,
       jobs ++ (us.filter (fun u => !(overdueTasksFor s u.id today).isEmpty)).map
         (fun u => (u.id, (overdueTasksFor s u.id today).map (fun t => t.id)))) := by
  intro us
  induction us with
  | nil => intro sent total jobs; simp [summaryLoop]
  | cons u rest ih =>
    intro sent total jobs
    cases hov : (overdueTasksFor s u.id today).isEmpty with
    | true => simp [summaryLoop, hov, ih, List.filter_cons]
    | false =>
      simp only [summaryLoop, hov, Bool.false_eq_true, if_false]
      rw [ih]
      simp [List.filter_cons, hov, List.append_assoc]
      omega

/-- C7.  With no failure injected, `send_daily_overdue_summary` enqueues a
per-user job exactly for the users having at least one overdue task, each job
carrying exactly that user's overdue task ids; the returned counters are the
number of such users and the total of their task counts; and a task is overdue
for a user iff it is in the store, its project (looked up by id) is owned by
the user or the task is assigned to the user, its due date exists and is
before today, and its status is not done. -/
theorem daily_overdue_summary_spec (s : Store) (today : DateTime) :
    (send_daily_overdue_summary s today (fun _ => none) =
      (.ok ⟨(s.users.filter (fun u => !(overdueTasksFor s u.id today).isEmpty)).length,
            ((s.users.filter (fun u => !(overdueTasksFor s u.id today).isEmpty)).map
              (fun u => (overdueTasksFor s u.id today).length)).sum,
            today⟩,
       (s.users.filter (fun u => !(overdueTasksFor s u.id today).isEmpty)).map
         (fun u => (u.id, (overdueTasksFor s u.id today).map (fun t => t.id)))))
    ∧ (∀ (uid : Nat) (t : Task), t ∈ overdueTasksFor s uid today ↔
        (t ∈ s.tasks
          ∧ (∃ p, s.projects.find? (fun p => p.id == t.project_id) = some p
              ∧ (p.owner_id = uid ∨ t.assigned_user_id = some uid))
          ∧ (∃ d, t.due_date = some d ∧ dtLt d today)
          ∧ t.status ≠ TaskStatus.done)) := by
  constructor
  · rw [send_daily_overdue_summary, summaryLoop_no_exc]
    simp
  · intro uid t
    cases hf : s.projects.find? (fun p => p.id == t.project_id) with
    | none => simp [overdueTasksFor, List.mem_filter, hf]
    | some p =>
      cases hdd : t.due_date with
      | none => simp [overdueTasksFor, List.mem_filter, hf, hdd]
      | some d => simp [overdueTasksFor, List.mem_filter, hf, hdd, and_assoc]

/-- Second project, owned by bob. -/
def p20 : Project := ⟨20, "Q", none, 2⟩

/-- Overdue task in alice's project. -/
def t110 : Task :=
  ⟨110, "A1", none, .todo, .medium, some ⟨2024, 5, 1, 0, 0, 0⟩, 10, none, dt0, dt0⟩

/-- Overdue task in bob's project. -/
def t120 : Task :=
  ⟨120, "B1", none, .in_progress, .high, some ⟨2024, 5, 2, 0, 0, 0⟩, 20, none, dt0, dt0⟩

def S8 : Store := ⟨[alice, bob], [p10, p20], [t110, t120]⟩

def today8 : DateTime := ⟨2024, 6, 1, 0, 0, 0⟩

/-- C8 (code bug).  The user loop of `send_daily_overdue_summary` runs inside
one `try` block: an exception raised while processing the first user (alice)
aborts the whole job — it returns the error dictionary and enqueues nothing —
even though the second user (bob) has an overdue task and, absent the failure,
would have received a summary job.  There is no per-user isolation. -/
theorem overdue_summary_not_user_isolated :
    send_daily_overdue_summary S8 today8
        (fun uid => if uid == 1 then some "db connection lost" else none) =
      (.error "db connection lost", [])
    ∧ overdueTasksFor S8 2 today8 = [t120]
    ∧ (send_daily_overdue_summary S8 today8 (fun _ => none)).2 =
        [(1, [110]), (2, [120])] := by
  refine ⟨by decide, by decide, by decide⟩

/-! ## C9: retry policy of the notification delivery job -/

/-- A body execution that returns ends the job with that result, whatever the
remaining retry budget. -/
theorem celery_retry_loop_ok {body : Nat → Except String Bool} {b : Bool}
    (fuel attempt : Nat) (delays : List Nat) (h : body attempt = .ok b) :
    celery_retry_loop body fuel attempt delays = (.completed b, delays) := by
  cases fuel <;> simp [celery_retry_loop, h]

/-- A body execution that raises, with budget left, retries after the
exponential countdown. -/
theorem celery_retry_loop_error_step {body : Nat → Except String Bool} {m : String}
    (fuel attempt : Nat) (delays : List Nat) (h : body attempt = .error m) :
    celery_retry_loop body (fuel + 1) attempt delays =
      celery_retry_loop body fuel (attempt + 1) (delays ++ [60 * 2 ^ attempt]) := by
  simp [celery_retry_loop, h]

/-- A body execution that raises with the budget exhausted abandons the job. -/
theorem celery_retry_loop_exhausted {body : Nat → Except String Bool} {m : String}
    (attempt : Nat) (delays : List Nat) (h : body attempt = .error m) :
    celery_retry_loop body 0 attempt delays = (.abandoned m, delays) := by
  simp [celery_retry_loop, h]

/-- C9 amended.  For the assignment notification job: a missing entity (task,
either user, or project) makes the very first execution return `False` — the
job completes with no retry, a non-retryable failure; when every entity is
present the job completes on the first execution with whatever boolean the
email service returns — in particular an SMTP-class transport failure is
caught inside `EmailService.send_email` and reported as `False`, again with no
retry; only an exception escaping the body (e.g. a database failure) triggers
the retry path, with exponential backoff countdowns 60, 120, 240, bounded at 3
retries, after which the job is abandoned. -/
theorem assignment_job_retry_policy (s : Store) (enabled : Bool)
    (tid auid abid : Nat) (tr : Nat → Transport) :
    ((s.tasks.find? (fun t => t.id == tid) = none
        ∨ (∃ task, s.tasks.find? (fun t => t.id == tid) = some task
            ∧ (s.users.find? (fun u => u.id == auid) = none
              ∨ s.users.find? (fun u => u.id == abid) = none
              ∨ s.projects.find? (fun p => p.id == task.project_id) = none))) →
      run_assignment_job s enabled tid auid abid tr (fun _ => none) =
        (.completed false, []))
    ∧ (∀ task, s.tasks.find? (fun t => t.id == tid) = some task →
        (s.users.find? (fun u => u.id == auid)).isSome = true →
        (s.users.find? (fun u => u.id == abid)).isSome = true →
        (s.projects.find? (fun p => p.id == task.project_id)).isSome = true →
        run_assignment_job s enabled tid auid abid tr (fun _ => none) =
          (.completed (send_email enabled (tr 0)), []))
    ∧ (∀ msgs : Nat → String,
        run_assignment_job s enabled tid auid abid tr (fun n => some (msgs n)) =
          (.abandoned (msgs 3), [60, 120, 240])) := by
  refine ⟨?_, ?_, ?_⟩
  · intro hmiss
    have hb : assignment_email_attempt s enabled tid auid abid (tr 0) none = .ok false := by
      rcases hmiss with hnone | ⟨task, htask, hu⟩
      · unfold assignment_email_attempt
        rw [hnone]
      · unfold assignment_email_attempt
        rw [htask]
        dsimp only
        rcases hu with h1 | h2 | h3
        · rw [h1]
        · cases hu1 : s.users.find? (fun u => u.id == auid) with
          | none => rfl
          | some u1 => rw [h2]
        · cases hu1 : s.users.find? (fun u => u.id == auid) with
          | none => rfl
          | some u1 =>
            dsimp only
            cases hu2 : s.users.find? (fun u => u.id == abid) with
            | none => rfl
            | some u2 =>
              dsimp only
              rw [h3]
    exact celery_retry_loop_ok MAX_RETRIES 0 [] hb
  · intro task htask h1 h2 h3
    obtain ⟨u1, hu1⟩ := Option.isSome_iff_exists.mp h1
    obtain ⟨u2, hu2⟩ := Option.isSome_iff_exists.mp h2
    obtain ⟨proj, hproj⟩ := Option.isSome_iff_exists.mp h3
    have hb : assignment_email_attempt s enabled tid auid abid (tr 0) none =
        .ok (send_email enabled (tr 0)) := by
      unfold assignment_email_attempt
      rw [htask]
      dsimp only
      rw [hu1]
      dsimp only
      rw [hu2]
      dsimp only
      rw [hproj]
    exact celery_retry_loop_ok MAX_RETRIES 0 [] hb
  · intro msgs
    show celery_retry_loop _ MAX_RETRIES 0 [] = _
    rw [show MAX_RETRIES = 2 + 1 from rfl,
      celery_retry_loop_error_step 2 0 [] rfl,
      show (2 : Nat) = 1 + 1 from rfl,
      celery_retry_loop_error_step 1 1 _ rfl,
      show (1 : Nat) = 0 + 1 from rfl,
      celery_retry_loop_error_step 0 2 _ rfl,
      celery_retry_loop_exhausted 3 _ rfl]
    rfl

/-- C9 counterexample: with every entity present and the transport failing
with an SMTP error on every execution, the job does *not* retry: it completes
(returning `False`) on the first execution with an empty backoff list, because
`EmailService.send_email` swallows the transport exception. -/
theorem transport_failure_not_retried :
    run_assignment_job S0 true 100 2 1
        (fun _ => .smtpError "connection refused") (fun _ => none) =
      (.completed false, [])
    ∧ send_email true (.smtpError "connection refused") = false := by
  refine ⟨by decide, by decide⟩

/-- C9 witness: the three regimes at concrete inputs — a missing task aborts
without retry; with all entities present a transport failure completes as
`False` without retry; a body that keeps raising is retried with backoff 60,
120, 240 and then abandoned. -/
theorem assignment_job_retry_policy_witness :
    run_assignment_job S0 true 999 2 1 (fun _ => .delivered) (fun _ => none) =
      (.completed false, [])
    ∧ run_assignment_job S0 true 100 2 1 (fun _ => .smtpError "timeout") (fun _ => none) =
        (.completed (send_email true ((fun _ => Transport.smtpError "timeout") 0)), [])
    ∧ run_assignment_job S0 true 100 2 1 (fun _ => .delivered)
        (fun n => some ((fun _ => "db gone") n)) =
      (.abandoned ((fun _ => "db gone") 3), [60, 120, 240]) :=
  ⟨(assignment_job_retry_policy S0 true 999 2 1 (fun _ => .delivered)).1
      (Or.inl (by decide)),
   (assignment_job_retry_policy S0 true 100 2 1 (fun _ => .smtpError "timeout")).2.1
      t100 (by decide) (by decide) (by decide) (by decide),
   (assignment_job_retry_policy S0 true 100 2 1 (fun _ => .delivered)).2.2
      (fun _ => "db gone")⟩

/-! ## C10: falsy query parameters apply no filter -/

/-- C10.  An empty-string status, priority, or due_date and a project_id of 0
are falsy in Python: `list_tasks` applies no filter at all for them — the call
succeeds with the full visible set (paginated), identically to passing no
parameters. -/
theorem falsy_params_apply_no_filter (s : Store) (uid lim off : Nat) :
    list_tasks s uid (some "") (some "") (some "") none (some 0) lim off =
      .ok (((visibleTasks s uid).drop off).take lim)
    ∧ list_tasks s uid (some "") (some "") (some "") none (some 0) lim off =
        list_tasks s uid none none none none none lim off :=
  ⟨rfl, rfl⟩

end App
